import Mathlib

/-!
Verification development for the YCSB benchmark report generator
(`.github/scripts/generate_report.py`).

The Python script is shallowly embedded: file contents are lists of lines,
Python `float`/`int` parsing is modelled over exact decimal values and
integers, Python dictionaries
holding heterogeneous values (`None`, floats, lists of pairs) are association
lists over an explicit value type, and Python exceptions are modelled with
`Except`.  The driver's filesystem is a function from path to optional file
content.
-/

/-! ## Python string primitives -/

/-- Whitespace characters removed by Python `str.strip()` (ASCII subset). -/
def pySpace (c : Char) : Bool :=
  c = ' ' || c = '\t' || c = '\n' || c = '\r'

/-- Model of Python `str.strip()`. -/
def pyStrip (s : String) : String :=
  ⟨((s.data.dropWhile pySpace).reverse.dropWhile pySpace).reverse⟩

/-- Model of Python `str.startswith(pre)`. -/
def pyStartsWith (s pre : String) : Bool :=
  pre.data.isPrefixOf s.data

/-- Fuel-driven splitting of a character list on a (nonempty) separator,
modelling Python `str.split(sep)`. -/
def pySplitFuel : Nat → List Char → List Char → List (List Char)
  | 0, _, s => [s]
  | _ + 1, _, [] => [[]]
  | fuel + 1, sep, c :: rest =>
    if sep.isPrefixOf (c :: rest) then
      [] :: pySplitFuel fuel sep ((c :: rest).drop sep.length)
    else
      match pySplitFuel fuel sep rest with
      | [] => [[c]]
      | h :: t => (c :: h) :: t

/-- Model of Python `s.split(sep)` for a nonempty separator. -/
def pySplitStr (sep s : String) : List String :=
  (pySplitFuel (s.data.length + 1) sep.data s.data).map String.mk

/-- Model of the Python slice `s[1:-1]`. -/
def pyDropFirstLast (s : String) : String :=
  ⟨(s.data.drop 1).dropLast⟩

/-- Split a character list on one character (used for the `.` of a float). -/
def splitOnChar (c : Char) : List Char → List (List Char)
  | [] => [[]]
  | x :: xs =>
    if x = c then
      [] :: splitOnChar c xs
    else
      match splitOnChar c xs with
      | [] => [[x]]
      | h :: t => (x :: h) :: t

/-- Numeric value of a list of decimal digit characters. -/
def digitsToNat (cs : List Char) : Nat :=
  cs.foldl (fun a c => a * 10 + (c.toNat - 48)) 0

/-- Model of Python `int(s)`: optional surrounding whitespace, optional sign,
a nonempty run of decimal digits; anything else raises `ValueError`,
modelled as `none`. -/
def pyInt (s : String) : Option Int :=
  let t := (pyStrip s).data
  let p : Int × List Char :=
    match t with
    | '-' :: r => (-1, r)
    | '+' :: r => (1, r)
    | r => (1, r)
  if p.2 ≠ [] ∧ p.2.all Char.isDigit then
    some (p.1 * (digitsToNat p.2 : Int))
  else
    none

/-- The exact value of a parsed Python float literal, as the rational
`num / 10 ^ exp10`.  The script never does arithmetic on the floats it
parses — it only stores them, prints them, and tests them against zero —
so this exact decimal representation is a faithful value model. -/
structure DecimalFloat where
  num : Int
  exp10 : Nat
deriving DecidableEq

/-- The rational value denoted by a `DecimalFloat`. -/
def DecimalFloat.toRat (x : DecimalFloat) : Rat :=
  (x.num : Rat) / (10 : Rat) ^ x.exp10

/-- Model of Python `float(s)` restricted to plain decimal notation: optional
surrounding whitespace, optional sign, digits with an optional single decimal
point (at least one digit in total).  Anything else is a parse failure
(`ValueError`, modelled as `none`).  The numeric value is kept exactly. -/
def pyFloat (s : String) : Option DecimalFloat :=
  let t := (pyStrip s).data
  let p : Int × List Char :=
    match t with
    | '-' :: r => (-1, r)
    | '+' :: r => (1, r)
    | r => (1, r)
  match splitOnChar '.' p.2 with
  | [a] =>
    if a ≠ [] ∧ a.all Char.isDigit then
      some ⟨p.1 * (digitsToNat a : Int), 0⟩
    else
      none
  | [a, b] =>
    if (a ++ b) ≠ [] ∧ a.all Char.isDigit ∧ b.all Char.isDigit then
      some ⟨p.1 * ((digitsToNat a : Int) * (10 : Int) ^ b.length + (digitsToNat b : Int)),
            b.length⟩
    else
      none
  | _ => none

/-! ## Python values, dictionaries, errors -/

/-- A value stored in one of the parser's section dictionaries: Python `None`,
a float, or a latency-distribution list of `(value, count)` pairs. -/
inductive PyVal where
  | vNone
  | vFloat (q : DecimalFloat)
  | vDist (l : List (Int × Int))
deriving DecidableEq

/-- A Python dict from strings to `PyVal`, as an insertion-ordered
association list with unique keys. -/
abbrev PyDict := List (String × PyVal)

/-- Dictionary lookup (`d[k]` / `d.get(k)`): `none` models a missing key. -/
def dictGet (d : PyDict) (k : String) : Option PyVal :=
  (d.find? (fun p => p.1 == k)).map (fun p => p.2)

/-- Dictionary assignment `d[k] = v`: replaces the value in place if the key
exists, otherwise appends the new binding (Python dict insertion order). -/
def dictSet (d : PyDict) (k : String) (v : PyVal) : PyDict :=
  if d.any (fun p => p.1 == k) then
    d.map (fun p => if p.1 == k then (k, v) else p)
  else
    d ++ [(k, v)]

/-- Python truthiness of a `PyVal` (`None` falsy, `0.0` falsy, `[]` falsy).
A decimal float is zero exactly when its numerator is zero. -/
def pyTruthyVal : PyVal → Bool
  | .vNone => false
  | .vFloat q => q.num ≠ 0
  | .vDist l => !l.isEmpty

/-- Python truthiness of the `current_section` variable (`None` or a string):
`None` and the empty string are falsy. -/
def pyTruthySection : Option String → Bool
  | none => false
  | some s => !s.data.isEmpty

/-- The Python exceptions the script can raise. -/
inductive PyError where
  | fileNotFound
  | valueError
  | keyError
  | typeError
  | attributeError
deriving DecidableEq

/-- Rendering of an exception for the `f"...: {e}"` diagnostic. -/
def pyErrorMsg : PyError → String
  | .fileNotFound => "FileNotFoundError"
  | .valueError => "ValueError"
  | .keyError => "KeyError"
  | .typeError => "TypeError"
  | .attributeError => "AttributeError"

/-! ## The metrics record -/

/-- The parser's `metrics` dictionary: the three fixed section dictionaries
keyed `OVERALL`, `UPDATE`, `READ`. -/
structure Metrics where
  overall : PyDict
  update : PyDict
  readSec : PyDict
deriving DecidableEq

/-- Initial contents of the `UPDATE` and `READ` section dictionaries. -/
def initSection : PyDict :=
  [("Operations", .vNone), ("AverageLatency(us)", .vNone), ("MinLatency(us)", .vNone),
   ("MaxLatency(us)", .vNone), ("95thPercentileLatency(us)", .vNone),
   ("99thPercentileLatency(us)", .vNone), ("Return=OK", .vNone),
   ("LatencyDistribution", .vDist [])]

/-- The initial `metrics` dictionary built at the top of `parse_ycsb_output`. -/
def initMetrics : Metrics :=
  { overall := [("RunTime(ms)", .vNone), ("Throughput(ops/sec)", .vNone)],
    update := initSection,
    readSec := initSection }

/-- `metrics[sec]`: `none` models the `KeyError` for an unknown section name. -/
def getSection (m : Metrics) (sec : String) : Option PyDict :=
  if sec = "OVERALL" then some m.overall
  else if sec = "UPDATE" then some m.update
  else if sec = "READ" then some m.readSec
  else none

/-- In-place update `metrics[sec][key] = v` for a valid section name. -/
def setSectionKey (m : Metrics) (sec key : String) (v : PyVal) : Metrics :=
  if sec = "OVERALL" then { m with overall := dictSet m.overall key v }
  else if sec = "UPDATE" then { m with update := dictSet m.update key v }
  else if sec = "READ" then { m with readSec := dictSet m.readSec key v }
  else m

/-! ## The parser -/

/-- The parser's mutable state: the `metrics` dictionary and `current_section`. -/
structure ParseState where
  metrics : Metrics
  currentSection : Option String
deriving DecidableEq

/-- The histogram-row shape test of the `elif` guard:
`line.startswith('0,') or line.startswith('>1000') or
(line and line[0].isdigit() and ',' in line)`. -/
def histShaped (l : String) : Bool :=
  pyStartsWith l "0," || pyStartsWith l ">1000" ||
    (!l.data.isEmpty && (l.data.headD ' ').isDigit && l.data.contains ',')

/-- Model of the Python `a, b = map(int, line.split(','))` statement: succeeds
exactly when the split has two fields and both parse as ints; every failure
mode raises `ValueError`, modelled as `none`. -/
def parseHistRow (l : String) : Option (Int × Int) :=
  match pySplitStr "," l with
  | [a, b] =>
    match pyInt a, pyInt b with
    | some x, some y => some (x, y)
    | _, _ => none
  | _ => none

/-- One iteration of the `for line in f` loop of `parse_ycsb_output`.
Uncaught exceptions are returned as `.error`; the inner
`except ValueError: pass` around histogram rows is already applied. -/
def processLine (st : ParseState) (rawLine : String) : Except PyError ParseState :=
  let line := pyStrip rawLine
  if pyStartsWith line "[OVERALL]" then
    let parts := pySplitStr ", " line
    if parts.length = 3 then
      match pyFloat (parts.getD 1 "") with
      | none => .error .valueError
      | some r1 =>
        let m1 := setSectionKey st.metrics "OVERALL" "RunTime(ms)" (.vFloat r1)
        match pyFloat (parts.getD 2 "") with
        | none => .error .valueError
        | some r2 =>
          .ok { st with
                metrics := setSectionKey m1 "OVERALL" "Throughput(ops/sec)" (.vFloat r2) }
    else
      .ok st
  else if pyStartsWith line "[UPDATE]" || pyStartsWith line "[READ]" then
    let parts := pySplitStr ", " line
    let sec := pyDropFirstLast (parts.getD 0 "")
    if parts.length ≥ 3 then
      match pyFloat (parts.getD 2 "") with
      | none => .error .valueError
      | some v =>
        match getSection st.metrics sec with
        | none => .error .keyError
        | some _ =>
          .ok { metrics := setSectionKey st.metrics sec (parts.getD 1 "") (.vFloat v),
                currentSection := some sec }
    else
      .ok { st with currentSection := some sec }
  else if pyTruthySection st.currentSection && histShaped line then
    if st.currentSection == some "UPDATE" || st.currentSection == some "READ" then
      match parseHistRow line with
      | none => .ok st
      | some p =>
        let sec := st.currentSection.getD ""
        match getSection st.metrics sec with
        | none => .error .keyError
        | some d =>
          match dictGet d "LatencyDistribution" with
          | some (.vDist l) =>
            .ok { st with
                  metrics := setSectionKey st.metrics sec "LatencyDistribution"
                    (.vDist (l ++ [p])) }
          | some _ => .error .attributeError
          | none => .error .keyError
    else
      .ok st
  else
    .ok st

/-- The whole `for line in f` loop of `parse_ycsb_output`. -/
def runLines : ParseState → List String → Except PyError ParseState
  | st, [] => .ok st
  | st, l :: ls =>
    match processLine st l with
    | .error e => .error e
    | .ok st' => runLines st' ls

/-- The body of the `try:` block of `parse_ycsb_output` on a file's lines. -/
def parse_ycsb_body (lines : List String) : Except PyError Metrics :=
  (runLines ⟨initMetrics, none⟩ lines).map (fun st => st.metrics)

/-- `parse_ycsb_output(filepath)`.  The filesystem `fs` maps a path to its
file's lines (`none` raising `FileNotFoundError`).  Both `except` clauses
turn a failure into `None` plus a warning printed to stderr; the returned
pair is the result and the emitted diagnostics. -/
def parse_ycsb_output (fs : String → Option (List String)) (filepath : String) :
    Option Metrics × List String :=
  match fs filepath with
  | none => (none, ["Warning: File not found " ++ filepath])
  | some lines =>
    match parse_ycsb_body lines with
    | .ok m => (some m, [])
    | .error e =>
      (none, ["Warning: Error parsing " ++ filepath ++ ": " ++ pyErrorMsg e])

/-! ## get_latency_values -/

/-- `get_latency_values(latency_distribution)`: each `(value, count)` pair
contributes `[value] * count` (empty for a nonpositive count, as in Python). -/
def get_latency_values (latency_distribution : List (Int × Int)) : List Int :=
  latency_distribution.foldl (fun acc p => acc ++ List.replicate p.2.toNat p.1) []

/-! ## generate_plot -/

/-- The artifact written by `generate_plot`: either the placeholder figure
with its explanatory message, or the box plot of the labelled samples. -/
inductive PlotOutput where
  | placeholder (path msg : String)
  | chart (path : String) (labels : List String) (data : List (List Int))
deriving DecidableEq

/-- The selection loop of `generate_plot`, building the `labels` and
`data_to_plot` pairs; a `KeyError`/`TypeError` raised while inspecting a
record propagates (nothing catches it in `generate_plot`). -/
def plotCollect : List (String × Option Metrics) → Except PyError (List (String × List Int))
  | [] => .ok []
  | (name, mo) :: rest =>
    match mo with
    | none => plotCollect rest
    | some m =>
      match dictGet m.update "Operations" with
      | none => .error .keyError
      | some ops =>
        if pyTruthyVal ops then
          match dictGet m.update "LatencyDistribution" with
          | none => .error .keyError
          | some distv =>
            if pyTruthyVal distv then
              match distv with
              | .vDist l =>
                let lats := get_latency_values l
                if lats.isEmpty then
                  plotCollect rest
                else
                  (plotCollect rest).map (fun acc => (name, lats) :: acc)
              | _ => .error .typeError
            else
              plotCollect rest
        else
          plotCollect rest

/-- `generate_plot(all_metrics, output_image_path)`. -/
def generate_plot (all_metrics : List (String × Option Metrics))
    (output_image_path : String) : Except PyError PlotOutput :=
  match plotCollect all_metrics with
  | .error e => .error e
  | .ok pairs =>
    if pairs.isEmpty then
      .ok (.placeholder output_image_path "No UPDATE latency data available for plotting.")
    else
      .ok (.chart output_image_path (pairs.map (fun p => p.1)) (pairs.map (fun p => p.2)))

/-! ## generate_markdown_report -/

/-- One metric cell of the summary table: a numeric value or the `N/A`
placeholder. -/
inductive Cell where
  | value (q : DecimalFloat)
  | na
deriving DecidableEq

/-- Formatting of one `section.get(key, 'N/A')` result by the f-string.
A missing key yields the `'N/A'` default; a float formats normally; Python
`None` (or a list) under a width format spec raises `TypeError`. -/
def formatCell : Option PyVal → Except PyError Cell
  | none => .ok .na
  | some (.vFloat q) => .ok (.value q)
  | some .vNone => .error .typeError
  | some (.vDist _) => .error .typeError

/-- One summary-table row of the Markdown report. -/
def mdRow (name : String) (mo : Option Metrics) :
    Except PyError (String × Cell × Cell × Cell) :=
  match mo with
  | none => .ok (name, .na, .na, .na)
  | some m => do
    let t ← formatCell (dictGet m.overall "Throughput(ops/sec)")
    let u ← formatCell (dictGet m.update "AverageLatency(us)")
    let r ← formatCell (dictGet m.readSec "AverageLatency(us)")
    .ok (name, t, u, r)

/-- Insertion into a name-sorted list (modelling Python `sorted` by key). -/
def insertSorted (x : String × Option Metrics) :
    List (String × Option Metrics) → List (String × Option Metrics)
  | [] => [x]
  | y :: ys => if x.1 ≤ y.1 then x :: y :: ys else y :: insertSorted x ys

/-- `sorted(all_metrics.items())` (keys are distinct, so stability is moot). -/
def sortByName (l : List (String × Option Metrics)) : List (String × Option Metrics) :=
  l.foldr insertSorted []

/-- The summary table of the Markdown report together with whether the plot
artifact was embedded (`os.path.exists(plot_image_path)`). -/
structure MarkdownReport where
  rows : List (String × Cell × Cell × Cell)
  plotEmbedded : Bool
deriving DecidableEq

/-- `generate_markdown_report(all_metrics, plot_image_path, output_md_path)`:
the summary table, one row per database in sorted-by-name order.  An
exception raised while formatting a row propagates out of the function. -/
def generate_markdown_report (all_metrics : List (String × Option Metrics))
    (plotExists : Bool) : Except PyError MarkdownReport :=
  ((sortByName all_metrics).mapM (fun p => mdRow p.1 p.2)).map
    (fun rows => ⟨rows, plotExists⟩)

/-! ## The driver -/

/-- The hard-coded `db_results_files` mapping of the `__main__` block
(`os.path.join('.', name)`). -/
def db_results_files : List (String × String) :=
  [("PostgreSQL", "./postgresql_results.txt"),
   ("CockroachDB", "./cockroachdb_results.txt"),
   ("FoundationDB", "./foundationdb_results.txt"),
   ("SQLite", "./sqlite_results.txt"),
   ("DuckDB", "./duckdb_results.txt")]

/-- The driver loop building `all_db_metrics`: one entry per database, keyed
by name, holding the parse result (present record or absent). -/
def all_db_metrics (fs : String → Option (List String)) :
    List (String × Option Metrics) :=
  db_results_files.map (fun p => (p.1, (parse_ycsb_output fs p.2).1))

/-! ## Helper lemmas -/

instance {ε α : Type} [DecidableEq ε] [DecidableEq α] : DecidableEq (Except ε α) :=
  fun a b =>
    match a, b with
    | .ok x, .ok y =>
      if h : x = y then .isTrue (by rw [h]) else
        .isFalse (fun hh => h (by cases hh; rfl))
    | .error x, .error y =>
      if h : x = y then .isTrue (by rw [h]) else
        .isFalse (fun hh => h (by cases hh; rfl))
    | .ok _, .error _ => .isFalse (fun hh => by cases hh)
    | .error _, .ok _ => .isFalse (fun hh => by cases hh)

lemma isPrefixOf_eq_append {p l : List Char} (h : p.isPrefixOf l = true) :
    ∃ t, l = p ++ t := by
  induction p generalizing l with
  | nil => exact ⟨l, rfl⟩
  | cons c cs ih =>
    cases l with
    | nil => simp [List.isPrefixOf] at h
    | cons b bs =>
      simp only [List.isPrefixOf, Bool.and_eq_true, beq_iff_eq] at h
      obtain ⟨t, ht⟩ := ih h.2
      exact ⟨t, by simp [h.1, ht]⟩

lemma perm_flatten {α : Type} {l₁ l₂ : List (List α)} (h : l₁.Perm l₂) :
    l₁.flatten.Perm l₂.flatten := by
  induction h with
  | nil => simp
  | cons x _ ih => simpa using ih.append_left x
  | swap x y l =>
    simp only [List.flatten_cons]
    rw [← List.append_assoc, ← List.append_assoc]
    exact List.perm_append_comm.append_right _
  | trans _ _ ih1 ih2 => exact ih1.trans ih2

lemma get_latency_values_eq_flatten (d : List (Int × Int)) :
    get_latency_values d = (d.map (fun p => List.replicate p.2.toNat p.1)).flatten := by
  suffices h : ∀ acc, d.foldl (fun a p => a ++ List.replicate p.2.toNat p.1) acc
      = acc ++ (d.map (fun p => List.replicate p.2.toNat p.1)).flatten by
    simpa [get_latency_values] using h []
  induction d with
  | nil => intro acc; simp
  | cons p ps ih => intro acc; simp [List.foldl_cons, ih, List.append_assoc]

lemma sum_toNat_cast (d : List (Int × Int)) (h : ∀ p ∈ d, 0 ≤ p.2) :
    (((d.map (fun p => p.2.toNat)).sum : Nat) : Int) = (d.map Prod.snd).sum := by
  induction d with
  | nil => simp
  | cons p ps ih =>
    simp only [List.map_cons, List.sum_cons, Nat.cast_add]
    rw [Int.toNat_of_nonneg (h p (by simp)), ih (fun q hq => h q (by simp [hq]))]

/-! ## Claims -/

/-- C1: the spec says a canonical OVERALL pair of rows
`[OVERALL], RunTime(ms), 12345` / `[OVERALL], Throughput(ops/sec), 530.1`
yields `runtime_ms = 12345.0` and `throughput_ops_per_sec = 530.1`.  The code
instead calls `float(parts[1])` on the label `RunTime(ms)`, raising
`ValueError`, which the blanket handler turns into an absent record: the
parser returns `None` on exactly the canonical input. -/
theorem c1_canonical_overall_rejected :
    parse_ycsb_body ["[OVERALL], RunTime(ms), 12345",
                     "[OVERALL], Throughput(ops/sec), 530.1"] = .error .valueError
    ∧ (parse_ycsb_output
        (fun _ => some ["[OVERALL], RunTime(ms), 12345",
                        "[OVERALL], Throughput(ops/sec), 530.1"])
        "postgresql_results.txt").1 = none :=
  ⟨by decide, by decide⟩

/-- C2: for every filesystem and file path, `parse_ycsb_output` yields either
a record with no diagnostic or the absent value with one diagnostic — no
exception escapes its boundary — and the driver's mapping still has one entry
per configured database. -/
theorem c2_parser_never_raises (fs : String → Option (List String)) (fp : String) :
    ((∃ m, parse_ycsb_output fs fp = (some m, []))
      ∨ (∃ d, parse_ycsb_output fs fp = (none, [d])))
    ∧ (all_db_metrics fs).map Prod.fst = db_results_files.map Prod.fst := by
  refine ⟨?_, rfl⟩
  cases h : fs fp with
  | none =>
    exact Or.inr ⟨"Warning: File not found " ++ fp, by simp [parse_ycsb_output, h]⟩
  | some lines =>
    cases hb : parse_ycsb_body lines with
    | ok m => exact Or.inl ⟨m, by simp [parse_ycsb_output, h, hb]⟩
    | error e =>
      exact Or.inr ⟨"Warning: Error parsing " ++ fp ++ ": " ++ pyErrorMsg e,
        by simp [parse_ycsb_output, h, hb]⟩

/-- The record parsed from a file containing only `[UPDATE], Operations, 5`:
all fields other than the UPDATE operation count are still `None`. -/
def c3_record : Metrics :=
  { initMetrics with update := dictSet initSection "Operations" (.vFloat ⟨5, 0⟩) }

/-- C3: the spec says an absent individual field renders as `N/A`, but the
section keys are pre-initialised to `None`, so `.get(key, 'N/A')` returns
`None` (not the default) and the f-string width format raises `TypeError`:
on a record whose OVERALL throughput was never populated, the Markdown
renderer crashes instead of emitting `N/A`. -/
theorem c3_absent_field_raises_type_error :
    parse_ycsb_body ["[UPDATE], Operations, 5"] = .ok c3_record
    ∧ generate_markdown_report [("A", some c3_record)] true = .error .typeError :=
  ⟨by decide, by decide⟩

/-- C4 counterexample: the claim's "the result's length equals the sum of the
counts" fails for a distribution holding a negative count, which the parser
can produce (e.g. from the row `1,-1`): the expansion of `[(1, -1)]` is empty,
so its length `0` differs from the count sum `-1`. -/
theorem c4_counterexample :
    ¬ (((get_latency_values [((1 : Int), (-1 : Int))]).length : Int)
        = ([((1 : Int), (-1 : Int))].map Prod.snd).sum) := by
  decide

/-- C4 (amended): for every latency distribution, each `(value, count)` pair
contributes `max(count, 0)` repetitions of `value`, so the result's length is
the sum of the counts clamped at zero — equal to the sum of the counts
whenever all counts are nonnegative; the expansion of rows `(1,5)` and
`(2,3)` has length 8 with five 1's and three 2's; and for every distribution,
permuting the rows permutes the expanded multiset. -/
theorem c4_expansion_amended (d : List (Int × Int)) :
    get_latency_values d = (d.map (fun p => List.replicate p.2.toNat p.1)).flatten
    ∧ (get_latency_values d).length = (d.map (fun p => p.2.toNat)).sum
    ∧ ((∀ p ∈ d, 0 ≤ p.2) →
        ((get_latency_values d).length : Int) = (d.map Prod.snd).sum)
    ∧ (∀ d', d.Perm d' → (get_latency_values d).Perm (get_latency_values d'))
    ∧ (get_latency_values [((1 : Int), (5 : Int)), ((2 : Int), (3 : Int))]).length = 8
    ∧ (get_latency_values [((1 : Int), (5 : Int)), ((2 : Int), (3 : Int))]).count 1 = 5
    ∧ (get_latency_values [((1 : Int), (5 : Int)), ((2 : Int), (3 : Int))]).count 2 = 3 := by
  have hmap : (List.length ∘ fun p : Int × Int => List.replicate p.2.toNat p.1)
      = fun p : Int × Int => p.2.toNat := by
    funext p; simp
  refine ⟨get_latency_values_eq_flatten d, ?_, ?_, ?_, by decide, by decide, by decide⟩
  · rw [get_latency_values_eq_flatten, List.length_flatten, List.map_map, hmap]
  · intro hnn
    rw [get_latency_values_eq_flatten, List.length_flatten, List.map_map, hmap,
      sum_toNat_cast d hnn]
  · intro d' hperm
    rw [get_latency_values_eq_flatten, get_latency_values_eq_flatten]
    exact perm_flatten (hperm.map _)

/-- Witness for C4's amended theorem at the spec's own example rows,
discharging the nonnegativity and permutation hypotheses there. -/
theorem c4_expansion_amended_witness :
    ((∀ p ∈ [((1 : Int), (5 : Int)), ((2 : Int), (3 : Int))], 0 ≤ p.2)
      ∧ [((1 : Int), (5 : Int)), ((2 : Int), (3 : Int))].Perm
          [((2 : Int), (3 : Int)), ((1 : Int), (5 : Int))])
    ∧ ((get_latency_values [((1 : Int), (5 : Int)), ((2 : Int), (3 : Int))]).length : Int)
        = ([((1 : Int), (5 : Int)), ((2 : Int), (3 : Int))].map Prod.snd).sum
    ∧ (get_latency_values [((1 : Int), (5 : Int)), ((2 : Int), (3 : Int))]).Perm
        (get_latency_values [((2 : Int), (3 : Int)), ((1 : Int), (5 : Int))]) :=
  ⟨⟨by decide, by decide⟩,
   (c4_expansion_amended [((1 : Int), (5 : Int)), ((2 : Int), (3 : Int))]).2.2.1
     (by decide),
   (c4_expansion_amended [((1 : Int), (5 : Int)), ((2 : Int), (3 : Int))]).2.2.2.1
     [((2 : Int), (3 : Int)), ((1 : Int), (5 : Int))] (by decide)⟩

lemma startsWith_false_of_head_ne {l p : String} {c c' : Char} {t t' : List Char}
    (hl : l.data = c :: t) (hp : p.data = c' :: t') (hne : c ≠ c') :
    pyStartsWith l p = false := by
  by_contra hb
  rw [Bool.not_eq_false] at hb
  obtain ⟨s, hs⟩ := isPrefixOf_eq_append hb
  rw [hl, hp] at hs
  simp only [List.cons_append, List.cons.injEq] at hs
  exact hne hs.1

lemma histShaped_first_char {l : String} (h : histShaped l = true) :
    ∃ c t, l.data = c :: t ∧ (c = '0' ∨ c = '>' ∨ c.isDigit = true) := by
  unfold histShaped at h
  simp only [Bool.or_eq_true, Bool.and_eq_true] at h
  rcases h with (h | h) | h
  · obtain ⟨t, ht⟩ := isPrefixOf_eq_append h
    have h0 : "0,".data = ['0', ','] := rfl
    rw [h0] at ht
    exact ⟨'0', ',' :: t, by simpa using ht, Or.inl rfl⟩
  · obtain ⟨t, ht⟩ := isPrefixOf_eq_append h
    have h0 : ">1000".data = ['>', '1', '0', '0', '0'] := rfl
    rw [h0] at ht
    exact ⟨'>', '1' :: '0' :: '0' :: '0' :: t, by simpa using ht, Or.inr (Or.inl rfl)⟩
  · obtain ⟨⟨hne, hdig⟩, _⟩ := h
    cases hd : l.data with
    | nil => rw [hd] at hne; simp at hne
    | cons c t =>
      refine ⟨c, t, rfl, Or.inr (Or.inr ?_)⟩
      rw [hd] at hdig
      simpa using hdig

lemma histShaped_not_marker {l : String} (h : histShaped l = true) :
    pyStartsWith l "[OVERALL]" = false ∧ pyStartsWith l "[UPDATE]" = false
      ∧ pyStartsWith l "[READ]" = false := by
  obtain ⟨c, t, hd, hc⟩ := histShaped_first_char h
  have hcne : c ≠ '[' := by
    rcases hc with hc | hc | hc
    · rw [hc]; decide
    · rw [hc]; decide
    · intro he; rw [he] at hc; exact absurd hc (by decide)
  exact ⟨startsWith_false_of_head_ne hd rfl hcne,
         startsWith_false_of_head_ne hd rfl hcne,
         startsWith_false_of_head_ne hd rfl hcne⟩

lemma update_not_overall {l : String} (h : pyStartsWith l "[UPDATE]" = true) :
    pyStartsWith l "[OVERALL]" = false := by
  by_contra hb
  rw [Bool.not_eq_false] at hb
  obtain ⟨t, ht⟩ := isPrefixOf_eq_append h
  obtain ⟨s, hs⟩ := isPrefixOf_eq_append hb
  rw [ht] at hs
  have hu : "[UPDATE]".data = ['[', 'U', 'P', 'D', 'A', 'T', 'E', ']'] := rfl
  have ho : "[OVERALL]".data = ['[', 'O', 'V', 'E', 'R', 'A', 'L', 'L', ']'] := rfl
  rw [hu, ho] at hs
  simp only [List.cons_append, List.cons.injEq] at hs
  exact absurd hs.2.1 (by decide)

lemma read_not_overall {l : String} (h : pyStartsWith l "[READ]" = true) :
    pyStartsWith l "[OVERALL]" = false := by
  by_contra hb
  rw [Bool.not_eq_false] at hb
  obtain ⟨t, ht⟩ := isPrefixOf_eq_append h
  obtain ⟨s, hs⟩ := isPrefixOf_eq_append hb
  rw [ht] at hs
  have hu : "[READ]".data = ['[', 'R', 'E', 'A', 'D', ']'] := rfl
  have ho : "[OVERALL]".data = ['[', 'O', 'V', 'E', 'R', 'A', 'L', 'L', ']'] := rfl
  rw [hu, ho] at hs
  simp only [List.cons_append, List.cons.injEq] at hs
  exact absurd hs.2.1 (by decide)

/-- C5: inside an UPDATE or READ section, a histogram-shaped line whose
fields fail integer parsing is silently dropped: the line leaves the whole
parse state (including all accumulated distribution entries) unchanged, no
exception escapes, and processing continues with the remaining lines. -/
theorem c5_bad_hist_row_dropped (st : ParseState) (line : String) (rest : List String)
    (hsec : st.currentSection = some "UPDATE" ∨ st.currentSection = some "READ")
    (hshape : histShaped (pyStrip line) = true)
    (hfail : parseHistRow (pyStrip line) = none) :
    processLine st line = .ok st ∧ runLines st (line :: rest) = runLines st rest := by
  obtain ⟨hno, hnu, hnr⟩ := histShaped_not_marker hshape
  have h1 : processLine st line = .ok st := by
    unfold processLine
    rcases hsec with hs | hs <;>
      simp [hno, hnu, hnr, hs, pyTruthySection, hshape, hfail]
  exact ⟨h1, by simp [runLines, h1]⟩

/-- Witness for C5 at the spec's own boundary example `>1000,0` inside an
UPDATE section. -/
theorem c5_bad_hist_row_dropped_witness :
    processLine ⟨initMetrics, some "UPDATE"⟩ ">1000,0" = .ok ⟨initMetrics, some "UPDATE"⟩
    ∧ runLines ⟨initMetrics, some "UPDATE"⟩ [">1000,0"]
        = runLines ⟨initMetrics, some "UPDATE"⟩ [] :=
  c5_bad_hist_row_dropped ⟨initMetrics, some "UPDATE"⟩ ">1000,0" []
    (Or.inl rfl) (by decide) (by decide)

/-- C6: a line whose first `', '`-separated token is exactly the `[UPDATE]`
or `[READ]` marker sets the current section to that tag; with at least 3
fields (and a float-parseable third field, as the claim's "stores field 3
converted to float" presupposes) it stores field 3 under the key literally
named by field 2 of that section's dictionary; with fewer than 3 fields it
sets the section and stores nothing; and a histogram-shaped line seen while
no section is current is ignored. -/
theorem c6_marker_line (st : ParseState) (line tag : String)
    (htag : tag = "UPDATE" ∨ tag = "READ")
    (hstart : pyStartsWith (pyStrip line) ("[" ++ tag ++ "]") = true)
    (hhead : (pySplitStr ", " (pyStrip line)).getD 0 "" = "[" ++ tag ++ "]") :
    (∀ q, (pySplitStr ", " (pyStrip line)).length ≥ 3 →
        pyFloat ((pySplitStr ", " (pyStrip line)).getD 2 "") = some q →
        processLine st line =
          .ok ⟨setSectionKey st.metrics tag
                ((pySplitStr ", " (pyStrip line)).getD 1 "") (.vFloat q), some tag⟩)
    ∧ ((pySplitStr ", " (pyStrip line)).length < 3 →
        processLine st line = .ok ⟨st.metrics, some tag⟩)
    ∧ (∀ st' l', st'.currentSection = none → histShaped (pyStrip l') = true →
        processLine st' l' = .ok st') := by
  refine ⟨?_, ?_, ?_⟩
  · intro q hlen hq
    rcases htag with h | h <;> subst h
    · have hu : pyStartsWith (pyStrip line) "[UPDATE]" = true := hstart
      have hno : pyStartsWith (pyStrip line) "[OVERALL]" = false := update_not_overall hu
      have hsec : pyDropFirstLast ("[" ++ "UPDATE" ++ "]") = "UPDATE" := rfl
      have hget : getSection st.metrics "UPDATE" = some st.metrics.update := rfl
      simp only [processLine, hhead, hsec, hno, hu, Bool.true_or, Bool.false_eq_true,
        if_false, if_true]
      rw [if_pos hlen, hq, hget]
    · have hr : pyStartsWith (pyStrip line) "[READ]" = true := hstart
      have hno : pyStartsWith (pyStrip line) "[OVERALL]" = false := read_not_overall hr
      have hsec : pyDropFirstLast ("[" ++ "READ" ++ "]") = "READ" := rfl
      have hget : getSection st.metrics "READ" = some st.metrics.readSec := rfl
      simp only [processLine, hhead, hsec, hno, hr, Bool.or_true, Bool.false_eq_true,
        if_false, if_true]
      rw [if_pos hlen, hq, hget]
  · intro hlen
    rcases htag with h | h <;> subst h
    · have hu : pyStartsWith (pyStrip line) "[UPDATE]" = true := hstart
      have hno : pyStartsWith (pyStrip line) "[OVERALL]" = false := update_not_overall hu
      have hsec : pyDropFirstLast ("[" ++ "UPDATE" ++ "]") = "UPDATE" := rfl
      simp only [processLine, hhead, hsec, hno, hu, Bool.true_or, Bool.false_eq_true,
        if_false, if_true]
      rw [if_neg (by omega)]
    · have hr : pyStartsWith (pyStrip line) "[READ]" = true := hstart
      have hno : pyStartsWith (pyStrip line) "[OVERALL]" = false := read_not_overall hr
      have hsec : pyDropFirstLast ("[" ++ "READ" ++ "]") = "READ" := rfl
      simp only [processLine, hhead, hsec, hno, hr, Bool.or_true, Bool.false_eq_true,
        if_false, if_true]
      rw [if_neg (by omega)]
  · intro st' l' hnone hshape
    obtain ⟨hno, hnu, hnr⟩ := histShaped_not_marker hshape
    unfold processLine
    simp [hno, hnu, hnr, hnone, pyTruthySection]

/-- Witness for C6 at the line `[READ], Operations, 7` from the initial
state. -/
theorem c6_marker_line_witness :
    processLine ⟨initMetrics, none⟩ "[READ], Operations, 7" =
      .ok ⟨setSectionKey initMetrics "READ" "Operations" (.vFloat ⟨7, 0⟩), some "READ"⟩ :=
  (c6_marker_line ⟨initMetrics, none⟩ "[READ], Operations, 7" "READ"
      (Or.inr rfl) (by decide) (by decide)).1 ⟨7, 0⟩ (by decide) (by decide)

/-- C9: the plot's selection rule tests the UPDATE operation count for Python
truthiness, not mere presence: a record whose `Operations` field is the float
`0.0` contributes nothing to the plot, whatever its latency distribution. -/
theorem c9_zero_ops_excluded (name : String) (m : Metrics) (z : Nat)
    (rest : List (String × Option Metrics)) (path : String)
    (hops : dictGet m.update "Operations" = some (.vFloat ⟨0, z⟩)) :
    plotCollect ((name, some m) :: rest) = plotCollect rest
    ∧ generate_plot ((name, some m) :: rest) path = generate_plot rest path := by
  have h1 : plotCollect ((name, some m) :: rest) = plotCollect rest := by
    simp only [plotCollect, hops, pyTruthyVal]
    simp
  exact ⟨h1, by unfold generate_plot; rw [h1]⟩

/-- Witness for C9: a record with `Operations = 0.0` and the non-empty
distribution `[(1, 2)]` is excluded from the plot. -/
theorem c9_zero_ops_excluded_witness :
    plotCollect [("X", some { initMetrics with
        update := dictSet (dictSet initSection "Operations" (.vFloat ⟨0, 0⟩))
          "LatencyDistribution" (.vDist [(1, 2)]) })] = plotCollect []
    ∧ generate_plot [("X", some { initMetrics with
        update := dictSet (dictSet initSection "Operations" (.vFloat ⟨0, 0⟩))
          "LatencyDistribution" (.vDist [(1, 2)]) })] "plot.png"
        = generate_plot [] "plot.png" :=
  c9_zero_ops_excluded "X" _ 0 [] "plot.png" (by decide)

/-- The claim's qualification rule for the plot: a present record with a
non-absent (float) UPDATE operation count and a non-empty UPDATE latency
distribution. -/
def claimQualifies (mo : Option Metrics) : Prop :=
  ∃ m q l, mo = some m
    ∧ dictGet m.update "Operations" = some (.vFloat q)
    ∧ dictGet m.update "LatencyDistribution" = some (.vDist l)
    ∧ l ≠ []

/-- Well-formedness of a record per the spec's data model: the UPDATE
operation count is a float or absent (`None`), and the UPDATE latency
distribution is a list. -/
def Metrics.wfUpdate (m : Metrics) : Prop :=
  ((∃ q, dictGet m.update "Operations" = some (.vFloat q))
      ∨ dictGet m.update "Operations" = some .vNone)
  ∧ ∃ l, dictGet m.update "LatencyDistribution" = some (.vDist l)

lemma plotCollect_nil_of_no_data (l : List (String × Option Metrics))
    (hwf : ∀ p ∈ l, ∀ m, p.2 = some m → m.wfUpdate)
    (hnone : ∀ p ∈ l, ¬ claimQualifies p.2) :
    plotCollect l = .ok [] := by
  induction l with
  | nil => rfl
  | cons hd tl ih =>
    obtain ⟨name, mo⟩ := hd
    have ihl := ih (fun p hp m hm => hwf p (by simp [hp]) m hm)
      (fun p hp => hnone p (by simp [hp]))
    cases mo with
    | none => simpa [plotCollect] using ihl
    | some m =>
      obtain ⟨hops, l0, hl0⟩ := hwf (name, some m) (by simp) m rfl
      rcases hops with ⟨q, hq⟩ | hq
      · by_cases hz : q.num = 0
        · simp only [plotCollect, hq, pyTruthyVal]
          simp [hz, ihl]
        · cases l0 with
          | nil =>
            simp only [plotCollect, hq, hl0, pyTruthyVal]
            simp [hz, ihl]
          | cons x xs =>
            exact absurd ⟨m, q, x :: xs, rfl, hq, hl0, by simp⟩
              (hnone (name, some m) (by simp))
      · simp only [plotCollect, hq, pyTruthyVal]
        simp [ihl]

/-- C7: when no database qualifies for the plot (present record, non-absent
UPDATE operation count, non-empty UPDATE latency distribution), `generate_plot`
still produces the placeholder artifact with its explanatory message at the
requested output path — it never aborts. -/
theorem c7_no_qualifying_data_placeholder (all_metrics : List (String × Option Metrics))
    (path : String)
    (hwf : ∀ p ∈ all_metrics, ∀ m, p.2 = some m → m.wfUpdate)
    (hnone : ∀ p ∈ all_metrics, ¬ claimQualifies p.2) :
    generate_plot all_metrics path =
      .ok (.placeholder path "No UPDATE latency data available for plotting.") := by
  unfold generate_plot
  rw [plotCollect_nil_of_no_data all_metrics hwf hnone]
  rfl

/-- Witness for C7: one absent record and one freshly initialised record. -/
theorem c7_no_qualifying_data_placeholder_witness :
    generate_plot [("A", none), ("B", some initMetrics)] "latency_comparison_plot.png"
      = .ok (.placeholder "latency_comparison_plot.png"
          "No UPDATE latency data available for plotting.") :=
  c7_no_qualifying_data_placeholder [("A", none), ("B", some initMetrics)]
    "latency_comparison_plot.png"
    (by
      intro p hp m hm
      simp only [List.mem_cons, List.not_mem_nil, or_false] at hp
      rcases hp with rfl | rfl
      · exact absurd hm (by simp)
      · obtain rfl : initMetrics = m := Option.some.inj hm
        exact ⟨Or.inr rfl, [], rfl⟩)
    (by
      intro p hp
      simp only [List.mem_cons, List.not_mem_nil, or_false] at hp
      rintro ⟨m, q, l, hmo, hq, hl, hlne⟩
      rcases hp with rfl | rfl
      · exact Option.noConfusion hmo
      · obtain rfl : initMetrics = m := Option.some.inj hmo
        have h0 : PyVal.vDist ([] : List (Int × Int)) = PyVal.vDist l :=
          Option.some.inj hl
        exact hlne (PyVal.vDist.inj h0).symm)

/-- C8: for a database of the driver's fixed mapping whose input file does
not exist, the parser returns the absent value, the driver's mapping still
holds an entry for that database whose value is absent, and absence is
distinct from any present record (in particular one parsed to zero
operations). -/
theorem c8_missing_file_entry_absent (fs : String → Option (List String))
    (db path : String)
    (hmem : (db, path) ∈ db_results_files) (hmiss : fs path = none) :
    (parse_ycsb_output fs path).1 = none
    ∧ (all_db_metrics fs).lookup db = some none
    ∧ ∀ m : Metrics, (none : Option Metrics) ≠ some m := by
  have hp1 : (parse_ycsb_output fs path).1 = none := by
    simp [parse_ycsb_output, hmiss]
  refine ⟨hp1, ?_, fun m h => Option.noConfusion h⟩
  simp only [db_results_files, List.mem_cons, List.not_mem_nil, or_false,
    Prod.mk.injEq] at hmem
  rcases hmem with ⟨rfl, rfl⟩ | ⟨rfl, rfl⟩ | ⟨rfl, rfl⟩ | ⟨rfl, rfl⟩ | ⟨rfl, rfl⟩
  · show some (parse_ycsb_output fs "./postgresql_results.txt").1 = some none
    rw [hp1]
  · show some (parse_ycsb_output fs "./cockroachdb_results.txt").1 = some none
    rw [hp1]
  · show some (parse_ycsb_output fs "./foundationdb_results.txt").1 = some none
    rw [hp1]
  · show some (parse_ycsb_output fs "./sqlite_results.txt").1 = some none
    rw [hp1]
  · show some (parse_ycsb_output fs "./duckdb_results.txt").1 = some none
    rw [hp1]

/-- Witness for C8 on the empty filesystem and the first configured
database. -/
theorem c8_missing_file_entry_absent_witness :
    (parse_ycsb_output (fun _ => none) "./postgresql_results.txt").1 = none
    ∧ (all_db_metrics (fun _ => none)).lookup "PostgreSQL" = some none
    ∧ ∀ m : Metrics, (none : Option Metrics) ≠ some m :=
  c8_missing_file_entry_absent (fun _ => none) "PostgreSQL"
    "./postgresql_results.txt" (by decide) rfl

/-- The record parsed from `["[OVERALL], 1, 2", "[UPDATE] extra"]`: the
OVERALL fields survive the mismatched marker line. -/
def c10_record : Metrics :=
  { initMetrics with
    overall := [("RunTime(ms)", .vFloat ⟨1, 0⟩), ("Throughput(ops/sec)", .vFloat ⟨2, 0⟩)] }

/-- C10 counterexample: a line beginning with `[UPDATE]` whose first
`', '`-token is not the exact tag but which has fewer than 3 fields
(`[UPDATE] extra`) triggers no dictionary lookup: the file is NOT reported
absent — the parser returns a record keeping the earlier OVERALL fields —
contradicting the claim's universal "the entire file is reported as
absent". -/
theorem c10_counterexample :
    (parse_ycsb_output (fun _ => some ["[OVERALL], 1, 2", "[UPDATE] extra"])
        "results.txt").1 = some c10_record := by
  decide

lemma mismatched_token_not_section {tok : String}
    (hstart : pyStartsWith tok "[UPDATE]" = true ∨ pyStartsWith tok "[READ]" = true)
    (hne1 : tok ≠ "[UPDATE]") (hne2 : tok ≠ "[READ]") :
    pyDropFirstLast tok ≠ "OVERALL" ∧ pyDropFirstLast tok ≠ "UPDATE"
      ∧ pyDropFirstLast tok ≠ "READ" := by
  obtain ⟨d⟩ := tok
  rcases hstart with h | h
  · obtain ⟨t, ht⟩ := isPrefixOf_eq_append h
    have ht' : d = ['[', 'U', 'P', 'D', 'A', 'T', 'E', ']'] ++ t := ht
    subst ht'
    cases t with
    | nil => exact absurd rfl hne1
    | cons c t' =>
      refine ⟨?_, ?_, ?_⟩
      · intro hEq
        have h2 : ('U' : Char) = 'O' :=
          congrArg (fun s : String => s.data.headD ' ') hEq
        exact absurd h2 (by decide)
      · intro hEq
        have h2 : (']' : Char) = ' ' :=
          congrArg (fun s : String => s.data.getD 6 ' ') hEq
        exact absurd h2 (by decide)
      · intro hEq
        have h2 : ('U' : Char) = 'R' :=
          congrArg (fun s : String => s.data.headD ' ') hEq
        exact absurd h2 (by decide)
  · obtain ⟨t, ht⟩ := isPrefixOf_eq_append h
    have ht' : d = ['[', 'R', 'E', 'A', 'D', ']'] ++ t := ht
    subst ht'
    cases t with
    | nil => exact absurd rfl hne2
    | cons c t' =>
      refine ⟨?_, ?_, ?_⟩
      · intro hEq
        have h2 : ('R' : Char) = 'O' :=
          congrArg (fun s : String => s.data.headD ' ') hEq
        exact absurd h2 (by decide)
      · intro hEq
        have h2 : ('R' : Char) = 'U' :=
          congrArg (fun s : String => s.data.headD ' ') hEq
        exact absurd h2 (by decide)
      · intro hEq
        have h2 : (']' : Char) = ' ' :=
          congrArg (fun s : String => s.data.getD 4 ' ') hEq
        exact absurd h2 (by decide)

/-- C10 (amended): a line beginning with `[UPDATE]` or `[READ]` whose first
`', '`-separated token (itself beginning with that marker) is not exactly
the bracketed tag AND which has at least 3 fields — so that the store into
`metrics[current_section]` is attempted — makes `processLine` raise
(`ValueError` from `float` or `KeyError` from the garbled section name), so
any file containing such a line is reported absent, discarding all metrics
accumulated from its other lines; with fewer than 3 fields the line only
sets the current section to a garbage tag and parsing continues. -/
theorem c10_mismatched_marker_aborts (line : String)
    (hstart : pyStartsWith (pyStrip line) "[UPDATE]" = true
      ∨ pyStartsWith (pyStrip line) "[READ]" = true)
    (htok : pyStartsWith ((pySplitStr ", " (pyStrip line)).getD 0 "") "[UPDATE]" = true
      ∨ pyStartsWith ((pySplitStr ", " (pyStrip line)).getD 0 "") "[READ]" = true)
    (hne1 : (pySplitStr ", " (pyStrip line)).getD 0 "" ≠ "[UPDATE]")
    (hne2 : (pySplitStr ", " (pyStrip line)).getD 0 "" ≠ "[READ]")
    (hlen : (pySplitStr ", " (pyStrip line)).length ≥ 3) :
    (∀ st, ∃ e, processLine st line = .error e)
    ∧ ∀ fs fp pre rest, fs fp = some (pre ++ line :: rest) →
        (parse_ycsb_output fs fp).1 = none := by
  obtain ⟨hnO, hnU, hnR⟩ := mismatched_token_not_section htok hne1 hne2
  have hstep : ∀ st, ∃ e, processLine st line = .error e := by
    intro st
    have hgs : getSection st.metrics
        (pyDropFirstLast ((pySplitStr ", " (pyStrip line)).getD 0 "")) = none := by
      unfold getSection
      rw [if_neg hnO, if_neg hnU, if_neg hnR]
    rcases hstart with h | h
    · have hno := update_not_overall h
      cases hf : pyFloat ((pySplitStr ", " (pyStrip line)).getD 2 "") with
      | none =>
        exact ⟨.valueError, by
          simp only [processLine, hno, h, Bool.true_or, Bool.false_eq_true,
            if_false, if_true]
          rw [if_pos hlen, hf]⟩
      | some v =>
        exact ⟨.keyError, by
          simp only [processLine, hno, h, Bool.true_or, Bool.false_eq_true,
            if_false, if_true]
          rw [if_pos hlen, hf, hgs]⟩
    · have hno := read_not_overall h
      cases hf : pyFloat ((pySplitStr ", " (pyStrip line)).getD 2 "") with
      | none =>
        exact ⟨.valueError, by
          simp only [processLine, hno, h, Bool.or_true, Bool.false_eq_true,
            if_false, if_true]
          rw [if_pos hlen, hf]⟩
      | some v =>
        exact ⟨.keyError, by
          simp only [processLine, hno, h, Bool.or_true, Bool.false_eq_true,
            if_false, if_true]
          rw [if_pos hlen, hf, hgs]⟩
  refine ⟨hstep, ?_⟩
  intro fs fp pre rest hfs
  have hrun : ∀ pre' (st : ParseState),
      ∃ e, runLines st (pre' ++ line :: rest) = .error e := by
    intro pre'
    induction pre' with
    | nil =>
      intro st
      obtain ⟨e, he⟩ := hstep st
      exact ⟨e, by simp [runLines, he]⟩
    | cons p ps ih =>
      intro st
      simp only [List.cons_append, runLines]
      cases hp : processLine st p with
      | error e => exact ⟨e, rfl⟩
      | ok st' => exact ih st'
  obtain ⟨e, he⟩ := hrun pre ⟨initMetrics, none⟩
  simp only [parse_ycsb_output, hfs, parse_ycsb_body, he]
  rfl

/-- Witness for C10's amended theorem at the claim's own example line. -/
theorem c10_mismatched_marker_aborts_witness :
    (parse_ycsb_output
        (fun _ => some ["[OVERALL], 1, 2", "[UPDATE] extra, label, 1.0"])
        "results.txt").1 = none :=
  (c10_mismatched_marker_aborts "[UPDATE] extra, label, 1.0"
      (Or.inl (by decide)) (Or.inl (by decide)) (by decide) (by decide)
      (by decide)).2
    (fun _ => some ["[OVERALL], 1, 2", "[UPDATE] extra, label, 1.0"])
    "results.txt" ["[OVERALL], 1, 2"] [] rfl
